import Mathlib

/-!
Verification of the GitHub→Discord bridge (`main.py`) against its
natural-language specification.

The Python source is shallowly embedded: JSON payloads become the `Json`
inductive, Python dictionary/string operations become total Lean functions
returning `Except String _` (the `String` carries the Python exception kind),
and the outbound HTTP delivery (`requests.post`) and environment
(`os.environ`) become injected capabilities `deliver : String → Json → Bool`
and `env : String → Option String`.  `process_event` additionally returns the
list of HTTP posts it performed so delivery attempts are observable.
-/

/-- JSON values, the shape of GitHub webhook payloads handled by `main.py`. -/
inductive Json where
  | null : Json
  | bool : Bool → Json
  | num : Int → Json
  | str : String → Json
  | arr : List Json → Json
  | obj : List (String × Json) → Json

/-- Python truthiness of a JSON value (`if x:`): `None`, `False`, `0`, `""`,
`[]` and `\x7b\x7d` are falsy, everything else truthy. -/
def truthy : Json → Bool
  | .null => false
  | .bool b => b
  | .num n => n != 0
  | .str s => s != ""
  | .arr xs => !xs.isEmpty
  | .obj fs => !fs.isEmpty

/-- First value bound to key `k`, or the default `d` (Python `dict.get(k, d)`
on an object already known to be a dict). -/
def lookupD (fs : List (String × Json)) (k : String) (d : Json) : Json :=
  match List.lookup k fs with
  | some v => v
  | none => d

/-- Python `dict.get(k)` on a dict: absent keys give `None`. -/
def lookupN (fs : List (String × Json)) (k : String) : Json :=
  lookupD fs k Json.null

/-- Python `x.get(k, d)`: an `AttributeError` when `x` is not a dict. -/
def pyGetD : Json → String → Json → Except String Json
  | .obj fs, k, d => .ok (lookupD fs k d)
  | _, _, _ => .error "AttributeError"

/-- Python `x.get(k)`: `None` when absent, `AttributeError` when `x` is not a
dict. -/
def pyGet : Json → String → Except String Json
  | .obj fs, k => .ok (lookupN fs k)
  | _, _ => .error "AttributeError"

mutual

/-- Structural equality of JSON values (Python `==` on parsed JSON). -/
def jsonBeq : Json → Json → Bool
  | .null, .null => true
  | .bool a, .bool b => a == b
  | .num a, .num b => a == b
  | .str a, .str b => a == b
  | .arr a, .arr b => jsonBeqList a b
  | .obj a, .obj b => jsonBeqFields a b
  | _, _ => false

/-- Elementwise equality of JSON lists. -/
def jsonBeqList : List Json → List Json → Bool
  | [], [] => true
  | a :: as, b :: bs => jsonBeq a b && jsonBeqList as bs
  | _, _ => false

/-- Elementwise equality of JSON object fields. -/
def jsonBeqFields : List (String × Json) → List (String × Json) → Bool
  | [], [] => true
  | (ka, va) :: as, (kb, vb) :: bs => ka == kb && jsonBeq va vb && jsonBeqFields as bs
  | _, _ => false

end

mutual

/-- Python `repr` of a JSON value, as interpolated by `str()` for containers. -/
def pyRepr : Json → String
  | .null => "None"
  | .bool true => "True"
  | .bool false => "False"
  | .num n => toString n
  | .str s => "\x27" ++ s ++ "\x27"
  | .arr xs => "[" ++ pyReprItems xs ++ "]"
  | .obj fs => "\x7b" ++ pyReprFields fs ++ "\x7d"

/-- Comma-separated `repr` of list items. -/
def pyReprItems : List Json → String
  | [] => ""
  | [x] => pyRepr x
  | x :: y :: rest => pyRepr x ++ ", " ++ pyReprItems (y :: rest)

/-- Comma-separated `repr` of dict entries. -/
def pyReprFields : List (String × Json) → String
  | [] => ""
  | [(k, v)] => "\x27" ++ k ++ "\x27: " ++ pyRepr v
  | (k, v) :: y :: rest => "\x27" ++ k ++ "\x27: " ++ pyRepr v ++ ", " ++ pyReprFields (y :: rest)

end

/-- Python `str(x)` as used by f-string interpolation. -/
def pyStrVal : Json → String
  | .null => "None"
  | .bool true => "True"
  | .bool false => "False"
  | .num n => toString n
  | .str s => s
  | .arr xs => pyRepr (.arr xs)
  | .obj fs => pyRepr (.obj fs)

/-- Python `len(x)`: defined for strings, lists and dicts, a `TypeError`
otherwise. -/
def pyLen : Json → Except String Nat
  | .str s => .ok s.length
  | .arr xs => .ok xs.length
  | .obj fs => .ok fs.length
  | _ => .error "TypeError"

/-- Sequencing of embedded Python steps: an exception short-circuits. -/
def pbind : Except String α → (α → Except String β) → Except String β
  | .error e, _ => .error e
  | .ok a, f => f a

/-- Python subscription `x[k]` with a string key: `KeyError` when a dict lacks
the key, `TypeError` when `x` is not a dict. -/
def pySub : Json → String → Except String Json
  | .obj fs, k =>
    match List.lookup k fs with
    | some v => .ok v
    | none => .error "KeyError"
  | _, _ => .error "TypeError"

/-- Python subscription `x[i]` with a numeric index (only `commits[0]` in the
source): strings index to one-character strings, dicts raise `KeyError`
(JSON object keys are strings), non-sequences raise `TypeError`. -/
def pySubNat : Json → Nat → Except String Json
  | .arr xs, i =>
    match xs.get? i with
    | some v => .ok v
    | none => .error "IndexError"
  | .str s, i =>
    match s.data.get? i with
    | some c => .ok (.str (String.singleton c))
    | none => .error "IndexError"
  | .obj _, _ => .error "KeyError"
  | _, _ => .error "TypeError"

/-- Python iteration `for x in v`: lists yield items, strings yield
one-character strings, dicts yield their keys, anything else raises
`TypeError`. -/
def pyIterate : Json → Except String (List Json)
  | .arr xs => .ok xs
  | .str s => .ok (s.data.map (fun c => .str (String.singleton c)))
  | .obj fs => .ok (fs.map (fun p => .str p.1))
  | _ => .error "TypeError"

/-- The list comprehension at `main.py:114`:
`[l["name"] for l in issue.get("labels", [])]`. -/
def labelNames (v : Json) : Except String (List Json) :=
  pbind (pyIterate v) fun items =>
  items.foldr (fun l acc =>
    pbind (pySub l "name") fun n =>
    pbind acc fun ns => .ok (n :: ns)) (.ok [])

/-- Python `sep.join(items)`: `TypeError` when an item is not a string. -/
def pyJoin (sep : String) (items : List Json) : Except String String :=
  pbind (items.foldr (fun j acc =>
    match j with
    | .str s => pbind acc fun ss => .ok (s :: ss)
    | _ => .error "TypeError") (.ok [])) fun ss =>
  .ok (String.intercalate sep ss)

/-- Python `in` containment: key membership for dicts, substring test for
strings, element membership for lists. -/
def strStarts : List Char → List Char → Bool
  | [], _ => true
  | _ :: _, [] => false
  | a :: as, b :: bs => a == b && strStarts as bs

/-- Whether `needle` occurs as a contiguous run inside the second list. -/
def strFind (needle : List Char) : List Char → Bool
  | [] => strStarts needle []
  | c :: t => strStarts needle (c :: t) || strFind needle t

/-- Whether `needle` is a substring of `hay` (Python `needle in hay`). -/
def strContains (hay needle : String) : Bool :=
  strFind needle.data hay.data

/-- Characterwise ASCII lowercasing (Python `s.lower()`). -/
def strLower (s : String) : String :=
  ⟨s.data.map Char.toLower⟩

/-- Python `k in x` for a string key. -/
def pyContains : Json → String → Except String Bool
  | .obj fs, k => .ok (List.lookup k fs).isSome
  | .str s, k => .ok (strContains s k)
  | .arr xs, k => .ok (xs.any (fun x => jsonBeq (.str k) x))
  | _, _ => .error "TypeError"

/-- Python `s.title()` (ASCII view): the first letter of each alphabetic run
uppercased, the rest lowercased. -/
def pyTitleAux : List Char → Bool → List Char
  | [], _ => []
  | c :: rest, prevAlpha =>
    (if c.isAlpha then (if prevAlpha then c.toLower else c.toUpper) else c)
      :: pyTitleAux rest c.isAlpha

/-- Python `s.title()` on a string. -/
def pyStrTitle (s : String) : String :=
  ⟨pyTitleAux s.data false⟩

/-- Python `x.title()`: an `AttributeError` when `x` is not a string. -/
def pyTitleJ : Json → Except String String
  | .str s => .ok (pyStrTitle s)
  | _ => .error "AttributeError"

/-- Replace every non-overlapping occurrence of `pat` (non-empty), scanning
left to right; the fuel is the input length, enough since every step consumes
at least one character. -/
def replaceFuel (pat rep : List Char) : Nat → List Char → List Char
  | _, [] => []
  | 0, l => l
  | fuel + 1, c :: t =>
    if strStarts pat (c :: t) then
      rep ++ replaceFuel pat rep fuel (List.drop (pat.length - 1) t)
    else
      c :: replaceFuel pat rep fuel t

/-- Python `s.replace(pat, rep)`: all non-overlapping occurrences, left to
right (identity for the empty pattern, never produced by the source). -/
def pyStrReplace (s pat rep : String) : String :=
  if pat = "" then s else ⟨replaceFuel pat.data rep.data s.data.length s.data⟩

/-- Python `x.replace(pat, rep)` on the JSON value `x`: an `AttributeError`
when `x` is not a string. -/
def pyReplace : Json → String → String → Except String String
  | .str s, pat, rep => .ok (pyStrReplace s pat rep)
  | _, _, _ => .error "AttributeError"

/-- Python `s.split("\n")[0]`: the text up to the first newline. -/
def firstLineStr (s : String) : String :=
  ⟨s.data.takeWhile (fun c => c != '\n')⟩

/-- Python `s.split("\n")[0]` applied to the JSON value `s`: an
`AttributeError` when `s` is not a string. -/
def pyFirstLine : Json → Except String String
  | .str s => .ok (firstLineStr s)
  | _ => .error "AttributeError"

/-- The shared truncation expression of the formatters
(`b[:cap] + "..." if b and len(b) > cap else b`, `main.py:71,135,174`):
truncate-and-suffix when the body is truthy and longer than `cap`. -/
def pyTruncate (cap : Nat) (b : Json) : Except String Json :=
  if truthy b then
    pbind (pyLen b) fun n =>
    if cap < n then
      match b with
      | .str s => .ok (.str (s.take cap ++ "..."))
      | _ => .error "TypeError"
    else .ok b
  else .ok b

/-- A formatter result: the dict `\x7b\x7d`, `\x7b"embed": e\x7d` or
`\x7b"content": c\x7d` returned by the formatters in `main.py`. -/
structure Message where
  embed : Option Json
  content : Option String

/-- The empty dict `\x7b\x7d` returned on a skip. -/
def Message.empty : Message := ⟨none, none⟩

/-- Python truthiness of the formatter result (`if not message_data:`,
`main.py:237`): the dict is falsy exactly when it has neither key. -/
def Message.isEmpty (m : Message) : Bool :=
  m.embed.isNone && m.content.isNone

/-- The action-emoji table of `format_pull_request` (`main.py:61-66`),
including the `TypeError` Python raises when the key is unhashable. -/
def prEmoji : Json → Except String String
  | .arr _ => .error "TypeError"
  | .obj _ => .error "TypeError"
  | .str s => .ok (if s = "opened" then "🔄" else if s = "closed" then "❌"
      else if s = "reopened" then "↩️" else if s = "ready_for_review" then "✅" else "🔄")
  | _ => .ok "🔄"

/-- The action-emoji table of `format_issue` (`main.py:125-130`). -/
def issueEmoji : Json → Except String String
  | .arr _ => .error "TypeError"
  | .obj _ => .error "TypeError"
  | .str s => .ok (if s = "opened" then "🚨" else if s = "closed" then "✅"
      else if s = "reopened" then "↩️" else if s = "labeled" then "🏷️" else "🚨")
  | _ => .ok "🚨"

/-- `format_pull_request` (`main.py:45-81`): skips draft PRs and events
missing a title or repository name, otherwise builds the PR embed. -/
def format_pull_request (data : Json) : Except String Message :=
  pbind (pyGetD data "pull_request" (Json.obj [])) fun pr =>
  pbind (pyGetD data "repository" (Json.obj [])) fun repo =>
  pbind (pyGetD data "sender" (Json.obj [])) fun sender =>
  pbind (pyGetD data "action" (Json.str "unknown")) fun action =>
  pbind (pyGet pr "draft") fun draft =>
  if truthy draft then .ok Message.empty else
  pbind (pyGet pr "title") fun title =>
  if !truthy title then .ok Message.empty else
  pbind (pyGet repo "full_name") fun fullName =>
  if !truthy fullName then .ok Message.empty else
  pbind (prEmoji action) fun emoji =>
  pbind (pyTitleJ action) fun actionTitle =>
  pbind (pyGet pr "html_url") fun urlV =>
  pbind (pyGet pr "body") fun bodyV =>
  pbind (pyTruncate 500 bodyV) fun descr =>
  pbind (pyGetD pr "head" (Json.obj [])) fun head =>
  pbind (pyGet head "ref") fun headRef =>
  pbind (pyGetD pr "base" (Json.obj [])) fun base =>
  pbind (pyGet base "ref") fun baseRef =>
  pbind (pyGetD sender "login" (Json.str "unknown")) fun author =>
  pbind (pyGet pr "number") fun numberV =>
  pbind (pyGet pr "created_at") fun tsV =>
  .ok ⟨some (Json.obj [
    ("title", .str (emoji ++ " PR " ++ actionTitle ++ ": " ++ pyStrVal title)),
    ("url", urlV),
    ("description", descr),
    ("color", .num 0x3498db),
    ("fields", .arr [
      .obj [("name", .str "Repository"), ("value", fullName), ("inline", .bool true)],
      .obj [("name", .str "Branch"),
            ("value", .str ("`" ++ pyStrVal headRef ++ "` → `" ++ pyStrVal baseRef ++ "`")),
            ("inline", .bool true)],
      .obj [("name", .str "Author"), ("value", author), ("inline", .bool true)]]),
    ("footer", .obj [("text", .str ("PR #" ++ pyStrVal numberV))]),
    ("timestamp", tsV)]), none⟩

/-- `format_push` (`main.py:84-105`): the empty dict when there are no
commits, otherwise plain content for one commit or for the commit count plus
the first-listed commit (the variable the source names `latest`). -/
def format_push (data : Json) : Except String Message :=
  pbind (pyGetD data "commits" (Json.arr [])) fun commits =>
  pbind (pyGetD data "repository" (Json.obj [])) fun repo =>
  pbind (pyGetD data "sender" (Json.obj [])) fun sender =>
  pbind (pyGetD data "ref" (Json.str "")) fun refRaw =>
  pbind (pyReplace refRaw "refs/heads/" "") fun ref =>
  if !truthy commits then .ok Message.empty else
  pbind (pyLen commits) fun commit_count =>
  pbind (pySubNat commits 0) fun latest =>
  pbind (pyGetD latest "message" (Json.str "")) fun messageRaw =>
  pbind (pyFirstLine messageRaw) fun message =>
  pbind (pyGetD latest "url" (Json.str "")) fun commit_url =>
  pbind (pyGet sender "login") fun login =>
  pbind (pyGet repo "full_name") fun fullName =>
  if commit_count = 1 then
    .ok ⟨none, some ("🔨 **" ++ pyStrVal login ++ "** pushed to `" ++ ref ++ "` in `"
      ++ pyStrVal fullName ++ "`: [" ++ message ++ "](" ++ pyStrVal commit_url ++ ")")⟩
  else
    .ok ⟨none, some ("🔨 **" ++ pyStrVal login ++ "** pushed " ++ toString commit_count
      ++ " commits to `" ++ ref ++ "` in `" ++ pyStrVal fullName ++ "` (latest: " ++ message ++ ")")⟩

/-- `format_issue` (`main.py:108-147`): extracts label names (which can raise,
`main.py:114`), skips pull requests disguised as issues and events missing a
title or repository name, otherwise builds the issue embed. -/
def format_issue (data : Json) : Except String Message :=
  pbind (pyGetD data "issue" (Json.obj [])) fun issue =>
  pbind (pyGetD data "repository" (Json.obj [])) fun repo =>
  pbind (pyGetD data "sender" (Json.obj [])) fun sender =>
  pbind (pyGetD data "action" (Json.str "unknown")) fun action =>
  pbind (pyGetD issue "labels" (Json.arr [])) fun labelsRaw =>
  pbind (labelNames labelsRaw) fun labels =>
  pbind (pyContains issue "pull_request") fun hasPR =>
  if hasPR then .ok Message.empty else
  pbind (pyGet issue "title") fun title =>
  if !truthy title then .ok Message.empty else
  pbind (pyGet repo "full_name") fun fullName =>
  if !truthy fullName then .ok Message.empty else
  pbind (issueEmoji action) fun emoji =>
  pbind (pyTitleJ action) fun actionTitle =>
  pbind (pyGet issue "html_url") fun urlV =>
  pbind (pyGet issue "body") fun bodyV =>
  pbind (pyTruncate 500 bodyV) fun descr =>
  pbind (pyGetD sender "login" (Json.str "unknown")) fun reporter =>
  pbind (pyGet issue "number") fun numberV =>
  pbind (if labels.isEmpty then .ok none else
    pbind (pyJoin ", " labels) fun joined => .ok (some joined)) fun joinedLabels =>
  .ok ⟨some (Json.obj [
    ("title", .str (emoji ++ " Issue " ++ actionTitle ++ ": " ++ pyStrVal title)),
    ("url", urlV),
    ("description", descr),
    ("color", .num 0xe74c3c),
    ("fields", .arr ([
      .obj [("name", .str "Repository"), ("value", fullName), ("inline", .bool true)],
      .obj [("name", .str "Reporter"), ("value", reporter), ("inline", .bool true)]] ++
      (match joinedLabels with
       | some joined => [Json.obj [("name", .str "Labels"), ("value", .str joined), ("inline", .bool false)]]
       | none => []))),
    ("footer", .obj [("text", .str ("Issue #" ++ pyStrVal numberV))])]), none⟩

/-- `format_release` (`main.py:150-182`): skips draft releases and events
missing a tag or repository name; plain content for pre-releases, an embed
for full releases. -/
def format_release (data : Json) : Except String Message :=
  pbind (pyGetD data "release" (Json.obj [])) fun release =>
  pbind (pyGetD data "repository" (Json.obj [])) fun repo =>
  pbind (pyGet release "draft") fun draft =>
  if truthy draft then .ok Message.empty else
  pbind (pyGet release "tag_name") fun tag =>
  if !truthy tag then .ok Message.empty else
  pbind (pyGet repo "full_name") fun fullName =>
  if !truthy fullName then .ok Message.empty else
  pbind (pyGetD release "prerelease" (Json.bool false)) fun isPre =>
  if truthy isPre then
    pbind (pyGet release "html_url") fun urlV =>
    .ok ⟨none, some ("🎉 **Pre-Release Available!** [" ++ pyStrVal tag ++ "]("
      ++ pyStrVal urlV ++ ") is out now!")⟩
  else
    pbind (pyGet release "name") fun nameV =>
    pbind (pyGet release "html_url") fun urlV =>
    pbind (pyGet release "body") fun bodyV =>
    pbind (pyTruncate 1000 bodyV) fun descr =>
    .ok ⟨some (Json.obj [
      ("title", .str ("🚀 New Release: " ++ pyStrVal (if truthy nameV then nameV else tag))),
      ("url", urlV),
      ("description", descr),
      ("color", .num 0xf1c40f),
      ("fields", .arr [
        .obj [("name", .str "Tag"), ("value", tag), ("inline", .bool true)],
        .obj [("name", .str "Repository"), ("value", fullName), ("inline", .bool true)]]),
      ("footer", .obj [("text", .str "Release Notes")])]), none⟩

/-- `WEBHOOK_CONFIG` (`main.py:15-19`): channel name to environment-variable
name. -/
def WEBHOOK_CONFIG (channel : String) : String :=
  if channel = "dev" then "DISCORD_WEBHOOK_DEV"
  else if channel = "alerts" then "DISCORD_WEBHOOK_ALERTS"
  else if channel = "announcements" then "DISCORD_WEBHOOK_ANNOUNCEMENTS"
  else ""

/-- `get_webhook_for_event` (`main.py:185-207`): PRs and issues go to dev,
pushes to alerts when the stripped ref equals "main" else dev, releases to
dev when prerelease else announcements, anything else nowhere.  `env` stands
for `os.environ.get`. -/
def get_webhook_for_event (env : String → Option String) (event_type : String) (data : Json) :
    Except String (Option String) :=
  if event_type = "pull_request" ∨ event_type = "issues" then
    .ok (env (WEBHOOK_CONFIG "dev"))
  else if event_type = "push" then
    pbind (pyGetD data "ref" (Json.str "")) fun refRaw =>
    pbind (pyReplace refRaw "refs/heads/" "") fun ref =>
    if ref = "main" then .ok (env (WEBHOOK_CONFIG "alerts"))
    else .ok (env (WEBHOOK_CONFIG "dev"))
  else if event_type = "release" then
    pbind (pyGetD data "release" (Json.obj [])) fun release =>
    pbind (pyGetD release "prerelease" (Json.bool false)) fun isPre =>
    if truthy isPre then .ok (env (WEBHOOK_CONFIG "dev"))
    else .ok (env (WEBHOOK_CONFIG "announcements"))
  else .ok none

/-- `get_formatter_for_event` (`main.py:210-218`). -/
def get_formatter_for_event (event_type : String) : Option (Json → Except String Message) :=
  if event_type = "pull_request" then some format_pull_request
  else if event_type = "push" then some format_push
  else if event_type = "issues" then some format_issue
  else if event_type = "release" then some format_release
  else none

/-- `send_discord_message` (`main.py:22-40`): skips an empty URL, builds the
Discord payload from the truthy parts, performs one post via the injected
`deliver` capability (`requests.post`; a `RequestException` is caught and
returns `False`).  Also returns the list of posts performed. -/
def send_discord_message (deliver : String → Json → Bool) (webhook_url : String)
    (embed : Option Json) (content : Option String) : Bool × List (String × Json) :=
  if webhook_url = "" then (false, [])
  else
    let p1 : List (String × Json) :=
      match embed with
      | some e => if truthy e then [("embeds", Json.arr [e])] else []
      | none => []
    let p2 : List (String × Json) :=
      match content with
      | some c => if c != "" then [("content", Json.str c)] else []
      | none => []
    let payload := Json.obj (p1 ++ p2)
    (deliver webhook_url payload, [(webhook_url, payload)])

/-- Whether Python would treat the `Optional[str]` webhook URL as falsy
(`if not webhook_url:`, `main.py:243`). -/
def urlFalsy : Option String → Bool
  | none => true
  | some s => s == ""

/-- `process_event` (`main.py:222-252`): returns the triggered-action count
together with the list of HTTP posts performed; a Python exception raised
along the way is `Except.error`. -/
def process_event (deliver : String → Json → Bool) (env : String → Option String)
    (event_type : String) (data : Json) : Except String (Nat × List (String × Json)) :=
  if event_type = "ping" then .ok (0, [])
  else
    match get_formatter_for_event event_type with
    | none => .ok (0, [])
    | some formatter =>
      pbind (formatter data) fun message_data =>
      if message_data.isEmpty then .ok (0, [])
      else
        pbind (get_webhook_for_event env event_type data) fun webhook_url =>
        if urlFalsy webhook_url then .ok (0, [])
        else
          pbind (pyGetD data "action" (Json.str "")) fun _ =>
          let r := send_discord_message deliver (webhook_url.getD "")
            message_data.embed message_data.content
          .ok ((if r.1 then 1 else 0), r.2)

/-- An inbound request to `POST /webhook`: the `X-GitHub-Event` header and
the parsed JSON body (`none` when absent). -/
structure HttpRequest where
  eventHeader : Option String
  body : Option Json

/-- An HTTP response from the Flask app: status code, `message` field and
`error` field of the JSON body. -/
structure HttpResponse where
  status : Nat
  message : Option String
  error : Option String

/-- Whether Python would treat the `Optional[str]` header as falsy
(`if not event_type:`, `main.py:260`). -/
def headerFalsy : Option String → Bool
  | none => true
  | some s => s == ""

/-- The `/webhook` view (`main.py:255-273`): 400 on a missing header or
body, "Pong!" for ping, otherwise the processed-count message; an exception
escaping `process_event` reaches Flask's 500 handler (`main.py:288-292`). -/
def webhook (deliver : String → Json → Bool) (env : String → Option String)
    (req : HttpRequest) : HttpResponse :=
  if headerFalsy req.eventHeader then ⟨400, none, some "Missing X-GitHub-Event header"⟩
  else
    let et := req.eventHeader.getD ""
    match req.body with
    | none => ⟨400, none, some "No data received"⟩
    | some data =>
      if !truthy data then ⟨400, none, some "No data received"⟩
      else if et = "ping" then ⟨200, some "Pong!", none⟩
      else
        match process_event deliver env et data with
        | .ok (n, _) => ⟨200, some ("Processed event. Triggered " ++ toString n ++ " actions."), none⟩
        | .error _ => ⟨500, none, some "Internal server error"⟩

/-- The triggered-action count of a dispatch outcome (0 when an exception
escaped). -/
def resultCount : Except String (Nat × List (String × Json)) → Nat
  | .ok (n, _) => n
  | .error _ => 0

/-- The HTTP posts performed by a dispatch outcome. -/
def resultPosts : Except String (Nat × List (String × Json)) → List (String × Json)
  | .ok (_, ps) => ps
  | .error _ => []

namespace SpecModel

/-- Modelled from the spec: the configuration-driven rule engine (spec §3,
§4.2-§4.4) whose implementation is missing from `src/` — `test_payloads.py`
imports its `CONFIG` and `check_filters` from `main`, but the `main.py` under
`src/` is the hardcoded variant without them.  An `Event` is the normalized
`(kind, action, payload)` tuple of spec §3. -/
structure Event where
  kind : String
  action : Option String
  payload : Json

/-- Modelled from the spec: a `FilterSet` (spec §3) — a mapping from the fixed
filter-key vocabulary to expected values, absent keys vacuously satisfied. -/
structure FilterSet where
  action_equals : Option String
  is_draft : Option Bool
  is_prerelease : Option Bool
  branch_equals : Option String
  labels_include_any : Option (List String)

/-- The FilterSet with no constraints. -/
def FilterSet.empty : FilterSet := ⟨none, none, none, none, none⟩

/-- Modelled from the spec: an `Action` (spec §3) — an endpoint reference
resolved through named variables plus a formatter identifier. -/
structure Action where
  endpoint_ref : String
  formatter_id : String

/-- Modelled from the spec: a `Rule` (spec §3). -/
structure Rule where
  name : String
  event_kind : String
  filters : FilterSet
  actions : List Action

/-- Event-derived draft flag (payload `pull_request.draft`); `none` when the
substructure is missing, which evaluates fail-closed (spec §4.2). -/
def payloadDraft : Json → Option Bool
  | .obj fs =>
    match List.lookup "pull_request" fs with
    | some (.obj pr) =>
      match List.lookup "draft" pr with
      | some (.bool b) => some b
      | _ => none
    | _ => none
  | _ => none

/-- Event-derived prerelease flag (payload `release.prerelease`). -/
def payloadPrerelease : Json → Option Bool
  | .obj fs =>
    match List.lookup "release" fs with
    | some (.obj rel) =>
      match List.lookup "prerelease" rel with
      | some (.bool b) => some b
      | _ => none
    | _ => none
  | _ => none

/-- Event-derived branch name: the payload `ref` with a leading
"refs/heads/" removed. -/
def payloadBranch : Json → Option String
  | .obj fs =>
    match List.lookup "ref" fs with
    | some (.str s) =>
      some (if strStarts "refs/heads/".data s.data then ⟨s.data.drop 11⟩ else s)
    | _ => none
  | _ => none

/-- Event-derived label names (payload `issue.labels[*].name`). -/
def payloadLabels : Json → Option (List String)
  | .obj fs =>
    match List.lookup "issue" fs with
    | some (.obj iss) =>
      match List.lookup "labels" iss with
      | some (.arr ls) =>
        ls.foldr (fun l acc =>
          match l with
          | .obj lf =>
            match List.lookup "name" lf with
            | some (.str n) => acc.map (fun ns => n :: ns)
            | _ => none
          | _ => none) (some [])
      | _ => none
    | _ => none
  | _ => none

/-- Modelled from the spec: the Filter Evaluator (spec §4.2).  Each present
key compares the event-derived actual value for equality — set-intersection
non-emptiness, case-insensitively, for `labels_include_any` — and a missing
payload substructure evaluates as non-match (fail-closed). -/
def filterMatches (f : FilterSet) (e : Event) : Bool :=
  (match f.action_equals with
   | none => true
   | some a => e.action == some a) &&
  (match f.is_draft with
   | none => true
   | some b => payloadDraft e.payload == some b) &&
  (match f.is_prerelease with
   | none => true
   | some b => payloadPrerelease e.payload == some b) &&
  (match f.branch_equals with
   | none => true
   | some br => payloadBranch e.payload == some br) &&
  (match f.labels_include_any with
   | none => true
   | some want =>
     match payloadLabels e.payload with
     | some actual => want.any (fun w => actual.any (fun a => strLower a == strLower w))
     | none => false)

/-- Modelled from the spec: whether a rule matches an event — declared event
kind equals the inbound kind and the filters pass (spec §4.3). -/
def ruleMatches (r : Rule) (e : Event) : Bool :=
  r.event_kind == e.kind && filterMatches r.filters e

/-- Modelled from the spec: the Rule Matcher `select` (spec §4.3), preserving
configuration order. -/
def select (rs : List Rule) (e : Event) : List Rule :=
  rs.filter (fun r => ruleMatches r e)

/-- Combine two (count, attempts) outcomes in order. -/
def addOut (x y : Nat × List (String × Message)) : Nat × List (String × Message) :=
  (x.1 + y.1, x.2 ++ y.2)

/-- Modelled from the spec: one action of the Dispatch Coordinator (spec
§4.4): resolve the endpoint (skip when unresolved), invoke the Formatter
Registry (skip when unregistered or when the Message is empty), then invoke
the delivery capability, counting a success.  Returns the count contribution
and the delivery attempts made. -/
def runAction (registry : String → Option (Json → Message)) (env : String → Option String)
    (deliver : String → Message → Bool) (e : Event) (a : Action) :
    Nat × List (String × Message) :=
  match env a.endpoint_ref with
  | none => (0, [])
  | some url =>
    match registry a.formatter_id with
    | none => (0, [])
    | some fmt =>
      let m := fmt e.payload
      if m.isEmpty then (0, [])
      else ((if deliver url m then 1 else 0), [(url, m)])

/-- Modelled from the spec: all actions of one matched rule, in declared
order (spec §4.4). -/
def runRule (registry : String → Option (Json → Message)) (env : String → Option String)
    (deliver : String → Message → Bool) (e : Event) (r : Rule) :
    Nat × List (String × Message) :=
  r.actions.foldl (fun acc a => addOut acc (runAction registry env deliver e a)) (0, [])

/-- Modelled from the spec: `dispatch(event, ruleset)` (spec §4.4) — for each
matched rule, run its actions; aggregate `triggered_count` and the delivery
attempts. -/
def dispatch (registry : String → Option (Json → Message)) (env : String → Option String)
    (deliver : String → Message → Bool) (e : Event) (rs : List Rule) :
    Nat × List (String × Message) :=
  (select rs e).foldl (fun acc r => addOut acc (runRule registry env deliver e r)) (0, [])

end SpecModel

@[simp] theorem pbind_ok (a : α) (f : α → Except String β) : pbind (.ok a) f = f a := rfl

@[simp] theorem pbind_error (e : String) (f : α → Except String β) :
    pbind (.error e) f = .error e := rfl

theorem strStarts_append (n r : List Char) : strStarts n (n ++ r) = true := by
  induction n with
  | nil => rfl
  | cons c t ih => simp [strStarts, ih]

theorem strFind_at (n post : List Char) : strFind n (n ++ post) = true := by
  cases hnp : n ++ post with
  | nil =>
    rcases List.append_eq_nil.mp hnp with ⟨h1, h2⟩
    subst h1; subst h2; rfl
  | cons c t =>
    rw [strFind]
    have hs := strStarts_append n post
    rw [hnp] at hs
    simp [hs]

theorem strFind_mid (n pre post : List Char) : strFind n (pre ++ (n ++ post)) = true := by
  induction pre with
  | nil => simpa using strFind_at n post
  | cons c t ih => simp [strFind, ih]

theorem strContains_mid (a m b : String) : strContains (a ++ m ++ b) m = true := by
  show strFind m.data (a ++ m ++ b).data = true
  rw [String.data_append, String.data_append, List.append_assoc]
  exact strFind_mid m.data a.data b.data

/-- C5: for every payload whose pull-request object is marked draft (a truthy
`draft` field), `format_pull_request` returns the empty Message, regardless
of every other payload field (`main.py:52-54`). -/
theorem C5_draft_pr_empty (ds pr : List (String × Json)) (d : Json)
    (hpr : List.lookup "pull_request" ds = some (Json.obj pr))
    (hd : List.lookup "draft" pr = some d)
    (ht : truthy d = true) :
    format_pull_request (Json.obj ds) = .ok Message.empty := by
  simp [format_pull_request, pyGetD, pyGet, lookupD, lookupN, hpr, hd, ht]

/-- Witness for C5 at a concrete draft-PR payload. -/
theorem C5_witness :
    List.lookup "pull_request" [("pull_request", Json.obj [("draft", Json.bool true)])]
      = some (Json.obj [("draft", Json.bool true)]) ∧
    List.lookup "draft" [("draft", Json.bool true)] = some (Json.bool true) ∧
    truthy (Json.bool true) = true ∧
    format_pull_request (Json.obj [("pull_request", Json.obj [("draft", Json.bool true)])])
      = .ok Message.empty :=
  ⟨rfl, rfl, rfl, C5_draft_pr_empty _ _ _ rfl rfl rfl⟩

/-- C4: for every payload and delivery/environment capability, processing an
event of kind "ping" performs zero posts and returns count 0
(`main.py:224-227`), and the webhook view acknowledges it with "Pong!"
(`main.py:269-270`). -/
theorem C4_ping_zero (deliver : String → Json → Bool) (env : String → Option String) :
    (∀ data, process_event deliver env "ping" data = .ok (0, [])) ∧
    (∀ body, truthy body = true →
      webhook deliver env ⟨some "ping", some body⟩ = ⟨200, some "Pong!", none⟩) := by
  constructor
  · intro data; rfl
  · intro body hb
    simp [webhook, headerFalsy, hb]

/-- Witness for C4 at a concrete ping payload. -/
theorem C4_witness :
    truthy (Json.obj [("zen", Json.str "Keep it simple.")]) = true ∧
    process_event (fun _ _ => true) (fun _ => some "http://w") "ping"
      (Json.obj [("zen", Json.str "Keep it simple.")]) = .ok (0, []) ∧
    webhook (fun _ _ => true) (fun _ => some "http://w")
      ⟨some "ping", some (Json.obj [("zen", Json.str "Keep it simple.")])⟩
      = ⟨200, some "Pong!", none⟩ :=
  ⟨rfl, (C4_ping_zero _ _).1 _, (C4_ping_zero _ _).2 _ rfl⟩

/-- An issues payload whose label object lacks a "name" key: GitHub never
sends this, but nothing in `main.py` guards against it. -/
def issueLabelBug : Json :=
  Json.obj [("issue", Json.obj [("labels", Json.arr [Json.obj []])])]

/-- C2: the claim (spec §7: nothing thrown within formatting or delivery
propagates past the coordinator) is violated by the code: the label
comprehension at `main.py:114` raises `KeyError` for a label object without
a "name" key, and `process_event` has no handler, so the exception escapes
the coordinator instead of yielding an integer count. -/
theorem C2_formatter_exception_escapes (deliver : String → Json → Bool)
    (env : String → Option String) :
    process_event deliver env "issues" issueLabelBug = .error "KeyError" := rfl

/-- The posts list of one `send_discord_message` call has at most one entry. -/
theorem send_posts_len (deliver : String → Json → Bool) (url : String)
    (e : Option Json) (c : Option String) :
    (send_discord_message deliver url e c).2.length ≤ 1 := by
  unfold send_discord_message
  split <;> simp

/-- C10: endpoint routing is a fixed function of event kind and payload
(`main.py:185-207`): pull_request and issues resolve to the dev webhook;
push resolves to alerts exactly when the ref with its "refs/heads/"
occurrences removed equals "main", else dev; release resolves to dev when
prerelease is truthy (announcements otherwise, also when the release object
is absent); every other kind resolves to no endpoint. -/
theorem C10_routing (env : String → Option String) :
    (∀ data, get_webhook_for_event env "pull_request" data = .ok (env "DISCORD_WEBHOOK_DEV")) ∧
    (∀ data, get_webhook_for_event env "issues" data = .ok (env "DISCORD_WEBHOOK_DEV")) ∧
    (∀ ds s, List.lookup "ref" ds = some (Json.str s) →
      get_webhook_for_event env "push" (Json.obj ds) =
        .ok (if pyStrReplace s "refs/heads/" "" = "main" then env "DISCORD_WEBHOOK_ALERTS"
             else env "DISCORD_WEBHOOK_DEV")) ∧
    (∀ ds, List.lookup "ref" ds = none →
      get_webhook_for_event env "push" (Json.obj ds) = .ok (env "DISCORD_WEBHOOK_DEV")) ∧
    (∀ ds rel p, List.lookup "release" ds = some (Json.obj rel) →
      List.lookup "prerelease" rel = some p →
      get_webhook_for_event env "release" (Json.obj ds) =
        .ok (if truthy p then env "DISCORD_WEBHOOK_DEV"
             else env "DISCORD_WEBHOOK_ANNOUNCEMENTS")) ∧
    (∀ ds, List.lookup "release" ds = none →
      get_webhook_for_event env "release" (Json.obj ds)
        = .ok (env "DISCORD_WEBHOOK_ANNOUNCEMENTS")) ∧
    (∀ et data, et ≠ "pull_request" → et ≠ "issues" → et ≠ "push" → et ≠ "release" →
      get_webhook_for_event env et data = .ok none) := by
  refine ⟨fun data => rfl, fun data => rfl, ?_, ?_, ?_, ?_, ?_⟩
  · intro ds s h
    simp [get_webhook_for_event, pyGetD, lookupD, h, pyReplace, WEBHOOK_CONFIG]
    split <;> rfl
  · intro ds h
    simp [get_webhook_for_event, pyGetD, lookupD, h, pyReplace, WEBHOOK_CONFIG, pyStrReplace]
    intro hc
    exact absurd hc (by decide)
  · intro ds rel p h1 h2
    simp [get_webhook_for_event, pyGetD, lookupD, h1, h2, WEBHOOK_CONFIG]
    split <;> rfl
  · intro ds h
    simp [get_webhook_for_event, pyGetD, lookupD, h, WEBHOOK_CONFIG, truthy]
  · intro et data h1 h2 h3 h4
    simp [get_webhook_for_event, h1, h2, h3, h4]

/-- Witness for C10 at concrete push and release payloads. -/
theorem C10_witness :
    List.lookup "ref" [("ref", Json.str "refs/heads/main")] = some (Json.str "refs/heads/main") ∧
    get_webhook_for_event (fun n => some n) "push" (Json.obj [("ref", Json.str "refs/heads/main")])
      = .ok (some "DISCORD_WEBHOOK_ALERTS") ∧
    List.lookup "release" [("release", Json.obj [("prerelease", Json.bool true)])]
      = some (Json.obj [("prerelease", Json.bool true)]) ∧
    get_webhook_for_event (fun n => some n) "release"
      (Json.obj [("release", Json.obj [("prerelease", Json.bool true)])])
      = .ok (some "DISCORD_WEBHOOK_DEV") ∧
    get_webhook_for_event (fun n => some n) "workflow_run" (Json.obj []) = .ok none := by
  refine ⟨rfl, ?_, rfl, ?_, ?_⟩
  · have h := (C10_routing (fun n => some n)).2.2.1 [("ref", Json.str "refs/heads/main")]
      "refs/heads/main" rfl
    simpa using h
  · have h := (C10_routing (fun n => some n)).2.2.2.2.1
      [("release", Json.obj [("prerelease", Json.bool true)])]
      [("prerelease", Json.bool true)] (Json.bool true) rfl rfl
    simpa using h
  · exact (C10_routing (fun n => some n)).2.2.2.2.2.2 "workflow_run" (Json.obj [])
      (by decide) (by decide) (by decide) (by decide)

/-- C9: one dispatch cycle performs at most one delivery attempt, and the
triggered-actions count never exceeds 1: `process_event` reaches at most one
`send_discord_message` call and returns `1 if success else 0`
(`main.py:222-252`). -/
theorem C9_at_most_one (deliver : String → Json → Bool) (env : String → Option String)
    (event_type : String) (data : Json) :
    resultCount (process_event deliver env event_type data) ≤ 1 ∧
    (resultPosts (process_event deliver env event_type data)).length ≤ 1 := by
  unfold process_event
  split
  · exact ⟨by simp [resultCount], by simp [resultPosts]⟩
  · cases hf : get_formatter_for_event event_type with
    | none => exact ⟨by simp [resultCount], by simp [resultPosts]⟩
    | some f =>
      cases hm : f data with
      | error e => simp [pbind, hm, resultCount, resultPosts]
      | ok m =>
        by_cases hempty : m.isEmpty = true
        · simp [pbind, hm, hempty, resultCount, resultPosts]
        · cases hw : get_webhook_for_event env event_type data with
          | error e => simp [pbind, hm, hempty, hw, resultCount, resultPosts]
          | ok w =>
            by_cases hfal : urlFalsy w = true
            · simp [pbind, hm, hempty, hw, hfal, resultCount, resultPosts]
            · cases ha : pyGetD data "action" (Json.str "") with
              | error e => simp [pbind, hm, hempty, hw, hfal, ha, resultCount, resultPosts]
              | ok a =>
                simp only [pbind, hm, hempty, hw, hfal, ha, if_false]
                constructor
                · simp [resultCount]
                  split <;> simp
                · simpa [resultPosts] using
                    send_posts_len deliver (w.getD "") m.embed m.content

/-- The "description" field of the embed produced by a formatter outcome. -/
def embedDescr : Except String Message → Option Json
  | .ok m =>
    match m.embed with
    | some (.obj fs) => List.lookup "description" fs
    | _ => none
  | .error _ => none

theorem pyTruncate_str (cap : Nat) (s : String) :
    pyTruncate cap (Json.str s) = .ok (.str (if cap < s.length then s.take cap ++ "..." else s)) := by
  unfold pyTruncate
  by_cases hs : truthy (Json.str s) = true
  · simp only [hs, if_true, pyLen, pbind_ok]
    split <;> rfl
  · have hse : s = "" := by simpa [truthy] using hs
    subst hse
    simp [truthy]

theorem strContains_of_parts (x a m b : String) (h : x = a ++ m ++ b) :
    strContains x m = true := h ▸ strContains_mid a m b

/-- A payload whose issue both carries a `pull_request` key and has a label
object without a "name": the disguised-PR skip at `main.py:117` is never
reached because line 114 raises first. -/
def issuePRLabelBug : Json :=
  Json.obj [("issue", Json.obj [
    ("pull_request", Json.obj [("url", Json.str "u")]),
    ("labels", Json.arr [Json.obj []])])]

/-- C8 counterexample: a payload whose issue carries a `pull_request` key for
which `format_issue` raises `KeyError` instead of returning the empty
Message — the label comprehension (`main.py:114`) runs before the
disguised-PR check (`main.py:117`). -/
theorem C8_counterexample :
    (List.lookup "pull_request"
      [("pull_request", Json.obj [("url", Json.str "u")]),
       ("labels", Json.arr [Json.obj []])]).isSome = true ∧
    format_issue issuePRLabelBug = .error "KeyError" :=
  ⟨rfl, rfl⟩

/-- C8 amended: for every payload whose issue object carries a
`pull_request` key and whose label extraction succeeds (every label entry a
dict with a "name"), `format_issue` returns the empty Message
(`main.py:116-118`). -/
theorem C8_pr_disguised_empty (ds iss : List (String × Json)) (ls : List Json)
    (hiss : List.lookup "issue" ds = some (Json.obj iss))
    (hlab : labelNames (lookupD iss "labels" (Json.arr [])) = .ok ls)
    (hpr : (List.lookup "pull_request" iss).isSome = true) :
    format_issue (Json.obj ds) = .ok Message.empty := by
  have hiss' : lookupD ds "issue" (Json.obj []) = Json.obj iss := by
    simp [lookupD, hiss]
  simp [format_issue, pyGetD, hiss', hlab, pyContains, hpr]

/-- Witness for C8 at a concrete disguised-PR payload. -/
theorem C8_witness :
    List.lookup "issue" [("issue", Json.obj [("pull_request", Json.null), ("title", Json.str "T")])]
      = some (Json.obj [("pull_request", Json.null), ("title", Json.str "T")]) ∧
    labelNames (lookupD [("pull_request", Json.null), ("title", Json.str "T")] "labels" (Json.arr []))
      = .ok [] ∧
    (List.lookup "pull_request" [("pull_request", Json.null), ("title", Json.str "T")]).isSome = true ∧
    format_issue (Json.obj [("issue", Json.obj [("pull_request", Json.null), ("title", Json.str "T")])])
      = .ok Message.empty :=
  ⟨rfl, rfl, rfl, C8_pr_disguised_empty _ _ _ rfl rfl rfl⟩

/-- A push payload whose only commit has a multi-line message. -/
def pushMultilineMsg : Json := Json.obj [
  ("ref", Json.str "refs/heads/dev"),
  ("commits", Json.arr [Json.obj [
    ("message", Json.str "fix: a\nextra detail line"),
    ("url", Json.str "http://c1")]]),
  ("repository", Json.obj [("full_name", Json.str "t/r")]),
  ("sender", Json.obj [("login", Json.str "dev")])]

/-- A push payload with zero commits but a non-string ref. -/
def pushZeroBadRef : Json := Json.obj [("commits", Json.arr []), ("ref", Json.num 5)]

/-- C6 counterexample: with one commit whose message spans two lines, the
emitted content carries only the first line, so it does not contain the
commit message (`main.py:97` keeps `split("\n")[0]`); and with zero commits
but a non-string ref the formatter raises before the zero-commit check
(`main.py:89` runs before `main.py:91`) instead of returning the empty
Message. -/
theorem C6_counterexample :
    format_push pushMultilineMsg
      = .ok ⟨none, some "🔨 **dev** pushed to `dev` in `t/r`: [fix: a](http://c1)"⟩ ∧
    strContains "🔨 **dev** pushed to `dev` in `t/r`: [fix: a](http://c1)"
      "fix: a\nextra detail line" = false ∧
    format_push pushZeroBadRef = .error "AttributeError" :=
  ⟨rfl, by decide, rfl⟩

/-- C6 amended: for payloads whose ref is a string (absent defaults to ""),
the push formatter returns the empty Message when the commits list is empty
(and such a push event triggers zero actions and zero posts); with exactly
one well-formed commit it emits plain content containing the first line of
the commit message; with several commits it emits plain content containing
the commit count and the first line of the first-listed commit's message
(the source's `latest`, `main.py:96`). -/
theorem C6_push_formatter :
    (∀ ds rs, lookupD ds "commits" (Json.arr []) = Json.arr [] →
      lookupD ds "ref" (Json.str "") = Json.str rs →
      format_push (Json.obj ds) = .ok Message.empty ∧
      ∀ deliver env, process_event deliver env "push" (Json.obj ds) = .ok (0, [])) ∧
    (∀ ds c sn rp rs ms,
      lookupD ds "commits" (Json.arr []) = Json.arr [Json.obj c] →
      lookupD ds "ref" (Json.str "") = Json.str rs →
      lookupD ds "repository" (Json.obj []) = Json.obj rp →
      lookupD ds "sender" (Json.obj []) = Json.obj sn →
      lookupD c "message" (Json.str "") = Json.str ms →
      ∃ content, format_push (Json.obj ds) = .ok ⟨none, some content⟩ ∧
        strContains content (firstLineStr ms) = true) ∧
    (∀ ds c c2 rest sn rp rs ms,
      lookupD ds "commits" (Json.arr []) = Json.arr (Json.obj c :: c2 :: rest) →
      lookupD ds "ref" (Json.str "") = Json.str rs →
      lookupD ds "repository" (Json.obj []) = Json.obj rp →
      lookupD ds "sender" (Json.obj []) = Json.obj sn →
      lookupD c "message" (Json.str "") = Json.str ms →
      ∃ content, format_push (Json.obj ds) = .ok ⟨none, some content⟩ ∧
        strContains content (firstLineStr ms) = true ∧
        strContains content (toString (rest.length + 2)) = true) := by
  refine ⟨?_, ?_, ?_⟩
  · intro ds rs hc hr
    have hfmt : format_push (Json.obj ds) = .ok Message.empty := by
      simp [format_push, pyGetD, hc, hr, pyReplace, truthy, Message.empty]
    refine ⟨hfmt, fun deliver env => ?_⟩
    simp [process_event, get_formatter_for_event, hfmt, Message.isEmpty, Message.empty]
  · intro ds c sn rp rs ms hc hr hrep hsnd hm
    refine ⟨"🔨 **" ++ pyStrVal (lookupN sn "login") ++ "** pushed to `"
      ++ pyStrReplace rs "refs/heads/" "" ++ "` in `" ++ pyStrVal (lookupN rp "full_name")
      ++ "`: [" ++ firstLineStr ms ++ "](" ++ pyStrVal (lookupD c "url" (Json.str "")) ++ ")",
      ?_, ?_⟩
    · simp [format_push, pyGetD, pyGet, hc, hr, hrep, hsnd, hm, pyReplace, truthy, pyLen,
        pySubNat, pyFirstLine]
    · apply strContains_of_parts _ ("🔨 **" ++ pyStrVal (lookupN sn "login") ++ "** pushed to `"
        ++ pyStrReplace rs "refs/heads/" "" ++ "` in `" ++ pyStrVal (lookupN rp "full_name")
        ++ "`: [") (firstLineStr ms)
        ("](" ++ pyStrVal (lookupD c "url" (Json.str "")) ++ ")")
      apply String.ext
      simp [String.data_append, List.append_assoc]
  · intro ds c c2 rest sn rp rs ms hc hr hrep hsnd hm
    refine ⟨"🔨 **" ++ pyStrVal (lookupN sn "login") ++ "** pushed "
      ++ toString (rest.length + 2) ++ " commits to `" ++ pyStrReplace rs "refs/heads/" ""
      ++ "` in `" ++ pyStrVal (lookupN rp "full_name") ++ "` (latest: " ++ firstLineStr ms ++ ")",
      ?_, ?_, ?_⟩
    · simp [format_push, pyGetD, pyGet, hc, hr, hrep, hsnd, hm, pyReplace, truthy, pyLen,
        pySubNat, pyFirstLine]
    · apply strContains_of_parts _ ("🔨 **" ++ pyStrVal (lookupN sn "login") ++ "** pushed "
        ++ toString (rest.length + 2) ++ " commits to `" ++ pyStrReplace rs "refs/heads/" ""
        ++ "` in `" ++ pyStrVal (lookupN rp "full_name") ++ "` (latest: ") (firstLineStr ms) ")"
      apply String.ext
      simp [String.data_append, List.append_assoc]
    · apply strContains_of_parts _ ("🔨 **" ++ pyStrVal (lookupN sn "login") ++ "** pushed ")
        (toString (rest.length + 2)) (" commits to `" ++ pyStrReplace rs "refs/heads/" ""
        ++ "` in `" ++ pyStrVal (lookupN rp "full_name") ++ "` (latest: " ++ firstLineStr ms ++ ")")
      apply String.ext
      simp [String.data_append, List.append_assoc]

/-- Witness for C6: the zero-commit case and the single-commit case at
concrete payloads. -/
theorem C6_witness :
    lookupD [("commits", Json.arr []), ("ref", Json.str "refs/heads/dev")] "commits" (Json.arr [])
      = Json.arr [] ∧
    process_event (fun _ _ => true) (fun _ => some "http://w") "push"
      (Json.obj [("commits", Json.arr []), ("ref", Json.str "refs/heads/dev")]) = .ok (0, []) ∧
    lookupD [("ref", Json.str "refs/heads/dev"),
        ("commits", Json.arr [Json.obj [("message", Json.str "one liner"), ("url", Json.str "u")]]),
        ("repository", Json.obj [("full_name", Json.str "t/r")]),
        ("sender", Json.obj [("login", Json.str "dev")])] "commits" (Json.arr [])
      = Json.arr [Json.obj [("message", Json.str "one liner"), ("url", Json.str "u")]] ∧
    (∃ content, format_push (Json.obj [("ref", Json.str "refs/heads/dev"),
        ("commits", Json.arr [Json.obj [("message", Json.str "one liner"), ("url", Json.str "u")]]),
        ("repository", Json.obj [("full_name", Json.str "t/r")]),
        ("sender", Json.obj [("login", Json.str "dev")])]) = .ok ⟨none, some content⟩ ∧
      strContains content (firstLineStr "one liner") = true) :=
  ⟨rfl,
   ((C6_push_formatter.1 [("commits", Json.arr []), ("ref", Json.str "refs/heads/dev")]
      "refs/heads/dev" rfl rfl).2 _ _),
   rfl,
   C6_push_formatter.2.1 _ [("message", Json.str "one liner"), ("url", Json.str "u")]
     [("login", Json.str "dev")] [("full_name", Json.str "t/r")] "refs/heads/dev" "one liner"
     rfl rfl rfl rfl rfl⟩

/-- C7: for string bodies, each formatter's emitted embed description is the
body truncated to the cap with "..." appended when the cap is strictly
exceeded (500 characters for pull requests and issues at `main.py:71,135`,
1000 for releases at `main.py:174`), and the body unchanged at or under the
cap — stated for every payload of the shape each formatter's embed path
requires (non-draft, titled, with a repository name, string action, and
dict-shaped substructures). -/
theorem C7_truncation :
    (∀ ds pr rp sn hd bs act s,
      lookupD ds "pull_request" (Json.obj []) = Json.obj pr →
      truthy (lookupN pr "draft") = false →
      truthy (lookupN pr "title") = true →
      lookupD ds "repository" (Json.obj []) = Json.obj rp →
      truthy (lookupN rp "full_name") = true →
      lookupD ds "action" (Json.str "unknown") = Json.str act →
      lookupD ds "sender" (Json.obj []) = Json.obj sn →
      lookupD pr "head" (Json.obj []) = Json.obj hd →
      lookupD pr "base" (Json.obj []) = Json.obj bs →
      lookupN pr "body" = Json.str s →
      embedDescr (format_pull_request (Json.obj ds)) =
        some (Json.str (if 500 < s.length then s.take 500 ++ "..." else s))) ∧
    (∀ ds iss rp sn ls joined act s,
      lookupD ds "issue" (Json.obj []) = Json.obj iss →
      labelNames (lookupD iss "labels" (Json.arr [])) = .ok ls →
      pyJoin ", " ls = .ok joined →
      (List.lookup "pull_request" iss).isSome = false →
      truthy (lookupN iss "title") = true →
      lookupD ds "repository" (Json.obj []) = Json.obj rp →
      truthy (lookupN rp "full_name") = true →
      lookupD ds "action" (Json.str "unknown") = Json.str act →
      lookupD ds "sender" (Json.obj []) = Json.obj sn →
      lookupN iss "body" = Json.str s →
      embedDescr (format_issue (Json.obj ds)) =
        some (Json.str (if 500 < s.length then s.take 500 ++ "..." else s))) ∧
    (∀ ds rel rp s,
      lookupD ds "release" (Json.obj []) = Json.obj rel →
      truthy (lookupN rel "draft") = false →
      truthy (lookupN rel "tag_name") = true →
      lookupD ds "repository" (Json.obj []) = Json.obj rp →
      truthy (lookupN rp "full_name") = true →
      truthy (lookupD rel "prerelease" (Json.bool false)) = false →
      lookupN rel "body" = Json.str s →
      embedDescr (format_release (Json.obj ds)) =
        some (Json.str (if 1000 < s.length then s.take 1000 ++ "..." else s))) := by
  refine ⟨?_, ?_, ?_⟩
  · intro ds pr rp sn hd bs act s hpr hdraft htitle hrep hfn hact hsnd hhead hbase hbody
    simp [format_pull_request, pyGetD, pyGet, hpr, hdraft, htitle, hrep, hfn, hact, hsnd,
      hhead, hbase, hbody, prEmoji, pyTitleJ, pyTruncate_str, embedDescr, List.lookup]
  · intro ds iss rp sn ls joined act s hiss hlab hjoin hnopr htitle hrep hfn hact hsnd hbody
    by_cases hls : ls.isEmpty
    · simp [format_issue, pyGetD, pyGet, pyContains, hiss, hlab, hls, hnopr, htitle, hrep, hfn,
        hact, hsnd, hbody, issueEmoji, pyTitleJ, pyTruncate_str, embedDescr, List.lookup]
    · simp [format_issue, pyGetD, pyGet, pyContains, hiss, hlab, hls, hjoin, hnopr, htitle,
        hrep, hfn, hact, hsnd, hbody, issueEmoji, pyTitleJ, pyTruncate_str, embedDescr,
        List.lookup]
  · intro ds rel rp s hrel hdraft htag hrep hfn hpre hbody
    simp [format_release, pyGetD, pyGet, hrel, hdraft, htag, hrep, hfn, hpre, hbody,
      pyTruncate_str, embedDescr, List.lookup]

/-- A 501-character body, one over the PR/issue cap. -/
def longBody : String := ⟨List.replicate 501 'a'⟩

/-- A pull-request payload with the 501-character body. -/
def prLongPayload : Json := Json.obj [
  ("action", Json.str "opened"),
  ("pull_request", Json.obj [
    ("number", Json.num 7), ("title", Json.str "T"), ("body", Json.str longBody),
    ("head", Json.obj [("ref", Json.str "f")]), ("base", Json.obj [("ref", Json.str "main")])]),
  ("repository", Json.obj [("full_name", Json.str "t/r")]),
  ("sender", Json.obj [("login", Json.str "u")])]

/-- A release payload with a short body. -/
def relShortPayload : Json := Json.obj [
  ("release", Json.obj [("tag_name", Json.str "v1"), ("body", Json.str "notes")]),
  ("repository", Json.obj [("full_name", Json.str "t/r")])]

set_option maxRecDepth 4096 in
/-- Witness for C7: the PR formatter truncates a 501-character body and the
release formatter leaves a short body unchanged. -/
theorem C7_witness :
    truthy (lookupN [("number", Json.num 7), ("title", Json.str "T"),
        ("body", Json.str longBody), ("head", Json.obj [("ref", Json.str "f")]),
        ("base", Json.obj [("ref", Json.str "main")])] "title") = true ∧
    500 < longBody.length ∧
    embedDescr (format_pull_request prLongPayload) =
      some (Json.str (if 500 < longBody.length then longBody.take 500 ++ "..." else longBody)) ∧
    embedDescr (format_release relShortPayload) =
      some (Json.str (if 1000 < ("notes" : String).length then ("notes" : String).take 1000 ++ "..."
        else "notes")) :=
  ⟨rfl, by decide, C7_truncation.1 _ _ _ _ _ _ "opened" longBody
      rfl rfl rfl rfl rfl rfl rfl rfl rfl rfl,
    C7_truncation.2.2 _ _ _ "notes" rfl rfl rfl rfl rfl rfl rfl⟩

/-- An issues payload whose label entry is a number, so `l["name"]`
(`main.py:114`) raises `TypeError`. -/
def issueNumLabel : Json :=
  Json.obj [("issue", Json.obj [("labels", Json.arr [Json.num 5])])]

/-- C3 counterexample: a successfully parsed request (header present, truthy
JSON body) that is answered 500, not 200 — the formatter raises and Flask's
500 handler answers (`main.py:288-292`), refuting "every successfully parsed
request gets 200". -/
theorem C3_counterexample :
    headerFalsy (some "issues") = false ∧
    truthy issueNumLabel = true ∧
    webhook (fun _ _ => false) (fun _ => none) ⟨some "issues", some issueNumLabel⟩
      = ⟨500, none, some "Internal server error"⟩ :=
  ⟨rfl, rfl, rfl⟩

/-- C3 amended: missing (or empty) header and missing (or falsy) body give
400 with an error; a truthy body of kind ping gives 200 "Pong!"; every other
successfully parsed request whose processing completes without a Python
exception gives 200 with "Processed event. Triggered N actions."; and a
request whose processing raises is answered 500 (`main.py:255-273,288-292`). -/
theorem C3_responses (deliver : String → Json → Bool) (env : String → Option String) :
    (∀ b, webhook deliver env ⟨none, b⟩ = ⟨400, none, some "Missing X-GitHub-Event header"⟩) ∧
    (∀ b, webhook deliver env ⟨some "", b⟩ = ⟨400, none, some "Missing X-GitHub-Event header"⟩) ∧
    (∀ et, et ≠ "" → webhook deliver env ⟨some et, none⟩ = ⟨400, none, some "No data received"⟩) ∧
    (∀ et d, et ≠ "" → truthy d = false →
      webhook deliver env ⟨some et, some d⟩ = ⟨400, none, some "No data received"⟩) ∧
    (∀ d, truthy d = true →
      webhook deliver env ⟨some "ping", some d⟩ = ⟨200, some "Pong!", none⟩) ∧
    (∀ et d n ps, et ≠ "" → et ≠ "ping" → truthy d = true →
      process_event deliver env et d = .ok (n, ps) →
      webhook deliver env ⟨some et, some d⟩
        = ⟨200, some ("Processed event. Triggered " ++ toString n ++ " actions."), none⟩) ∧
    (∀ et d e, et ≠ "" → et ≠ "ping" → truthy d = true →
      process_event deliver env et d = .error e →
      webhook deliver env ⟨some et, some d⟩ = ⟨500, none, some "Internal server error"⟩) := by
  refine ⟨fun b => rfl, fun b => rfl, ?_, ?_, ?_, ?_, ?_⟩
  · intro et h
    simp [webhook, headerFalsy, h]
  · intro et d h hd
    simp [webhook, headerFalsy, h, hd]
  · intro d hd
    simp [webhook, headerFalsy, hd]
  · intro et d n ps h1 h2 hd hp
    simp [webhook, headerFalsy, h1, h2, hd, hp]
  · intro et d e h1 h2 hd hp
    simp [webhook, headerFalsy, h1, h2, hd, hp]

/-- Witness for C3 at a matching-nothing push payload answered 200 with zero
triggered actions. -/
theorem C3_witness :
    ("push" : String) ≠ "" ∧ ("push" : String) ≠ "ping" ∧
    truthy (Json.obj [("after", Json.str "abc")]) = true ∧
    process_event (fun _ _ => false) (fun _ => none) "push"
      (Json.obj [("after", Json.str "abc")]) = .ok (0, []) ∧
    webhook (fun _ _ => false) (fun _ => none)
      ⟨some "push", some (Json.obj [("after", Json.str "abc")])⟩
      = ⟨200, some "Processed event. Triggered 0 actions.", none⟩ :=
  ⟨by decide, by decide, rfl, rfl,
   (C3_responses _ _).2.2.2.2.2.1 "push" _ 0 [] (by decide) (by decide) rfl rfl⟩

/-- C1: spec-modelled (the configuration-driven dispatcher is not under
`src/`; only its tests are).  For an event matched by two rules with one
action each targeting different endpoints, dispatching attempts delivery for
both actions, and `triggered_count` equals the number of successful
deliveries — the sum of the two success indicators, hence 0, 1 or 2 — for
every delivery capability, including ones that fail one or both deliveries
(spec §4.4, §8). -/
theorem C1_two_rules (registry : String → Option (Json → Message))
    (env : String → Option String) (deliver : String → Message → Bool)
    (e : SpecModel.Event) (r1 r2 : SpecModel.Rule) (a1 a2 : SpecModel.Action)
    (u1 u2 : String) (f1 f2 : Json → Message)
    (h1 : SpecModel.ruleMatches r1 e = true) (h2 : SpecModel.ruleMatches r2 e = true)
    (ha1 : r1.actions = [a1]) (ha2 : r2.actions = [a2])
    (hu1 : env a1.endpoint_ref = some u1) (hu2 : env a2.endpoint_ref = some u2)
    (hne : u1 ≠ u2)
    (hf1 : registry a1.formatter_id = some f1) (hf2 : registry a2.formatter_id = some f2)
    (he1 : (f1 e.payload).isEmpty = false) (he2 : (f2 e.payload).isEmpty = false) :
    SpecModel.dispatch registry env deliver e [r1, r2]
      = ((if deliver u1 (f1 e.payload) then 1 else 0)
          + (if deliver u2 (f2 e.payload) then 1 else 0),
         [(u1, f1 e.payload), (u2, f2 e.payload)]) ∧
    (SpecModel.dispatch registry env deliver e [r1, r2]).1 ≤ 2 := by
  have hmain : SpecModel.dispatch registry env deliver e [r1, r2]
      = ((if deliver u1 (f1 e.payload) then 1 else 0)
          + (if deliver u2 (f2 e.payload) then 1 else 0),
         [(u1, f1 e.payload), (u2, f2 e.payload)]) := by
    simp [SpecModel.dispatch, SpecModel.select, List.filter, h1, h2, SpecModel.runRule,
      ha1, ha2, SpecModel.runAction, hu1, hu2, hf1, hf2, he1, he2, SpecModel.addOut]
  refine ⟨hmain, ?_⟩
  rw [hmain]
  cases deliver u1 (f1 e.payload) <;> cases deliver u2 (f2 e.payload) <;> simp

/-- Witness for C1: two one-action rules with empty filters on the same
event, one delivery failing and one succeeding, so the count is 1 and both
endpoints were attempted. -/
theorem C1_witness :
    SpecModel.ruleMatches ⟨"R1", "pull_request", SpecModel.FilterSet.empty, [⟨"E1", "fmt"⟩]⟩
      ⟨"pull_request", some "opened", Json.obj [("x", Json.num 1)]⟩ = true ∧
    SpecModel.ruleMatches ⟨"R2", "pull_request", SpecModel.FilterSet.empty, [⟨"E2", "fmt"⟩]⟩
      ⟨"pull_request", some "opened", Json.obj [("x", Json.num 1)]⟩ = true ∧
    ("http://w1" : String) ≠ "http://w2" ∧
    (Message.isEmpty ⟨none, some "hello"⟩) = false ∧
    SpecModel.dispatch
      (fun i => if i = "fmt" then some (fun _ => (⟨none, some "hello"⟩ : Message)) else none)
      (fun n => if n = "E1" then some "http://w1" else if n = "E2" then some "http://w2" else none)
      (fun u _ => u == "http://w2")
      ⟨"pull_request", some "opened", Json.obj [("x", Json.num 1)]⟩
      [⟨"R1", "pull_request", SpecModel.FilterSet.empty, [⟨"E1", "fmt"⟩]⟩,
       ⟨"R2", "pull_request", SpecModel.FilterSet.empty, [⟨"E2", "fmt"⟩]⟩]
      = (1, [("http://w1", ⟨none, some "hello"⟩), ("http://w2", ⟨none, some "hello"⟩)]) :=
  ⟨rfl, rfl, by decide, rfl,
   (C1_two_rules
     (fun i => if i = "fmt" then some (fun _ => (⟨none, some "hello"⟩ : Message)) else none)
     (fun n => if n = "E1" then some "http://w1" else if n = "E2" then some "http://w2" else none)
     (fun u _ => u == "http://w2")
     ⟨"pull_request", some "opened", Json.obj [("x", Json.num 1)]⟩
     ⟨"R1", "pull_request", SpecModel.FilterSet.empty, [⟨"E1", "fmt"⟩]⟩
     ⟨"R2", "pull_request", SpecModel.FilterSet.empty, [⟨"E2", "fmt"⟩]⟩
     ⟨"E1", "fmt"⟩ ⟨"E2", "fmt"⟩ "http://w1" "http://w2"
     (fun _ => (⟨none, some "hello"⟩ : Message)) (fun _ => (⟨none, some "hello"⟩ : Message))
     rfl rfl rfl rfl rfl rfl (by decide) rfl rfl rfl rfl).1⟩
